import Mathlib

/-!
Verification of the task-manager core (src/agent.py, src/app.py): a shallow
embedding of the task store, the field validators, the five tool handlers,
the tool dispatcher and the bounded LLM/tool command loop, together with
theorems settling the specification's claims about them.

Conventions: SQLite rows become a `Task` structure (NULL-able columns are
`Option`), the tasks table becomes a list of rows plus the AUTOINCREMENT
counter, Python dicts of optional tool arguments become structures of
`Option` fields (`none` = key absent), and handlers return the result
string paired with the successor store.
-/

namespace Agent

/-! ## Calendar arithmetic and the `%Y-%m-%d` parse (datetime.strptime) -/

/-- Numeric value of a decimal digit character. -/
def digitVal (c : Char) : Nat := c.toNat - 48

/-- Gregorian leap-year rule, as `datetime.date` applies it. -/
def isLeapYear (y : Nat) : Bool := y % 4 == 0 && (y % 100 != 0 || y % 400 == 0)

/-- Number of days in month `m` of year `y` (`datetime.date`'s calendar). -/
def daysInMonth (y m : Nat) : Nat :=
  if m == 2 then (if isLeapYear y then 29 else 28)
  else if m == 4 || m == 6 || m == 9 || m == 11 then 30
  else 31

/-- Greedy scan of one or two decimal digits, as the `%m`/`%d` patterns of
`datetime.strptime` consume them; returns the value and the rest. -/
def munch2 : List Char → Option (Nat × List Char)
  | [] => none
  | [c] => if c.isDigit then some (digitVal c, []) else none
  | c :: d :: rest =>
    if c.isDigit then
      if d.isDigit then some (digitVal c * 10 + digitVal d, rest)
      else some (digitVal c, d :: rest)
    else none

/-- `datetime.strptime(s, "%Y-%m-%d")` as a partial function: exactly four
digits of year, a dash, one or two digits of month, a dash, one or two
digits of day, end of string; the parsed triple must name an existing
calendar day (month 1..12, day within the month, year at least 1), else
the Python call raises `ValueError` and this returns `none`. -/
def strptimeYmd (s : String) : Option (Nat × Nat × Nat) :=
  match s.data with
  | y1 :: y2 :: y3 :: y4 :: '-' :: rest =>
    if y1.isDigit && y2.isDigit && y3.isDigit && y4.isDigit then
      let y := digitVal y1 * 1000 + digitVal y2 * 100 + digitVal y3 * 10 + digitVal y4
      match munch2 rest with
      | some (m, '-' :: rest2) =>
        match munch2 rest2 with
        | some (d, []) =>
          if 1 ≤ y ∧ 1 ≤ m ∧ m ≤ 12 ∧ 1 ≤ d ∧ d ≤ daysInMonth y m then
            some (y, m, d)
          else none
        | _ => none
      | _ => none
    else none
  | _ => none

/-- Python's `str.strip()`: drop whitespace from both ends. -/
def pyStrip (s : String) : String :=
  String.mk (((s.data.dropWhile Char.isWhitespace).reverse.dropWhile Char.isWhitespace).reverse)

/-- Python's `str.lower()` and SQL `LOWER`: lowercase every character. -/
def pyLower (s : String) : String := String.mk (s.data.map Char.toLower)

/-! ## Data model -/

/-- One row of the `tasks` table (src/agent.py `init_db`). -/
structure Task where
  id : Nat
  title : String
  description : String
  priority : String
  status : String
  created_at : String
  due_date : Option String
  category : Option String
deriving DecidableEq, Repr

/-- The `tasks` table: rows in insertion order plus the AUTOINCREMENT
counter for the next `id`. -/
structure TaskStore where
  tasks : List Task
  nextId : Nat
deriving DecidableEq, Repr

/-- A freshly created database: no rows, first id will be 1. -/
def emptyStore : TaskStore := { tasks := [], nextId := 1 }

/-- `SELECT * FROM tasks WHERE id = ? ... fetchone()`. -/
def findTask (s : TaskStore) (tid : Nat) : Option Task :=
  s.tasks.find? (fun t => t.id == tid)

/-- `VALID_PRIORITIES` (src/agent.py line 49). -/
def VALID_PRIORITIES : List String := ["low", "medium", "high", "urgent"]

/-- `VALID_STATUSES` (src/agent.py line 50). -/
def VALID_STATUSES : List String := ["pending", "in_progress", "completed"]

/-- `MAX_TOOL_ROUNDS` (src/agent.py line 48). -/
def MAX_TOOL_ROUNDS : Nat := 10

/-! ## Validators (src/agent.py lines 163-213) -/

/-- `validate_due_date` (src/agent.py lines 194-204): a falsy argument
(absent or empty) passes through; otherwise the string must parse under
`%Y-%m-%d` or the function raises `InputError` (modelled as `.error`). -/
def validate_due_date (due_date : Option String) : Except String (Option String) :=
  match due_date with
  | none => .ok none
  | some d =>
    if d = "" then .ok (some "")
    else if (strptimeYmd d).isSome then .ok (some d)
    else .error s!"Invalid due date '{d}'. Expected format: YYYY-MM-DD (e.g. 2026-03-15)"

/-- `validate_category` (src/agent.py lines 207-213): falsy passes through,
length over 50 raises, otherwise the label is trimmed and lowercased.
(No handler calls this function; the handlers inline their own checks.) -/
def validate_category (category : Option String) : Except String (Option String) :=
  match category with
  | none => .ok none
  | some c =>
    if c = "" then .ok (some "")
    else if c.length > 50 then
      .error "Category name is too long. Please keep it under 50 characters."
    else .ok (some (pyLower (pyStrip c)))

/-! ## Tool argument records (the dicts the LLM sends to each handler) -/

/-- Arguments of the `add_task` tool; `none` means the key is absent. -/
structure AddArgs where
  title : Option String := none
  description : Option String := none
  priority : Option String := none
  due_date : Option String := none
  category : Option String := none
deriving DecidableEq, Repr

/-- Arguments of the `update_task` tool; `none` means the key is absent. -/
structure UpdateArgs where
  task_id : Option Nat := none
  title : Option String := none
  description : Option String := none
  priority : Option String := none
  status : Option String := none
  due_date : Option String := none
  category : Option String := none
deriving DecidableEq, Repr

/-- Arguments of the `list_tasks` tool; `none` means the key is absent. -/
structure ListArgs where
  status : Option String := none
  priority : Option String := none
  category : Option String := none
  sort_by : Option String := none
deriving DecidableEq, Repr

/-! ## handle_add_task (src/agent.py lines 379-420) -/

/-- The `INSERT INTO tasks ...` of `handle_add_task`: row gets the next id,
status defaults to `pending`, `created_at` to the current time. -/
def insertTask (now : String) (s : TaskStore) (title description priority : String)
    (due_date category : Option String) : TaskStore :=
  let row : Task :=
    { id := s.nextId, title := title, description := description,
      priority := priority, status := "pending", created_at := now,
      due_date := due_date, category := category }
  { tasks := s.tasks ++ [row], nextId := s.nextId + 1 }

/-- `handle_add_task` (src/agent.py lines 379-420): validates inline (title
non-empty after strip and at most 200 chars, priority in the enum, a truthy
due date must parse, a truthy category at most 50 chars), inserts the row,
and reports; validation failures return an error string with the store
untouched. -/
def handle_add_task (now : String) (s : TaskStore) (data : AddArgs) : String × TaskStore :=
  let title := pyStrip (data.title.getD "")
  if title = "" then ("Error: task title cannot be empty.", s)
  else if title.length > 200 then ("Error: task title is too long (max 200 characters).", s)
  else
    let description := data.description.getD ""
    let priority := data.priority.getD "medium"
    if priority ∉ VALID_PRIORITIES then
      (s!"Error: invalid priority '{priority}'. Use: high, low, medium, urgent", s)
    else
      let dueErr : Option String := match data.due_date with
        | some d => if d != "" && (strptimeYmd d).isNone then
            some s!"Error: invalid due date format '{d}'. Use YYYY-MM-DD." else none
        | none => none
      match dueErr with
      | some e => (e, s)
      | none =>
        let catBad := match data.category with
          | some c => c != "" && c.length > 50
          | none => false
        if catBad then ("Error: category name is too long (max 50 characters).", s)
        else
          let s' := insertTask now s title description priority data.due_date data.category
          let res := s!"Task added (ID {s.nextId}): '{title}' | priority: {priority}"
          let res := match data.due_date with
            | some d => if d != "" then res ++ s!" | due: {d}" else res
            | none => res
          let res := match data.category with
            | some c => if c != "" then res ++ s!" | category: {c}" else res
            | none => res
          (res, s')

/-! ## handle_update_task (src/agent.py lines 483-531) -/

/-- First validation failure of the field loop of `handle_update_task`,
checked in the order of the `updatable` list (title, description, priority,
status, due_date, category; description and category carry no check). -/
def updateFieldError (a : UpdateArgs) : Option String :=
  let tErr : Option String := match a.title with
    | some v => if pyStrip v = "" then some "Error: title cannot be empty." else none
    | none => none
  let pErr : Option String := match a.priority with
    | some v => if v ∉ VALID_PRIORITIES then some s!"Error: invalid priority '{v}'." else none
    | none => none
  let sErr : Option String := match a.status with
    | some v => if v ∉ VALID_STATUSES then some s!"Error: invalid status '{v}'." else none
    | none => none
  let dErr : Option String := match a.due_date with
    | some v => if v != "" && (strptimeYmd v).isNone then
        some s!"Error: invalid due date format '{v}'. Use YYYY-MM-DD." else none
    | none => none
  (tErr.or (pErr.or (sErr.or dErr)))

/-- Whether any updatable key is present (`if not fields` check). -/
def hasUpdateField (a : UpdateArgs) : Bool :=
  a.title.isSome || a.description.isSome || a.priority.isSome || a.status.isSome ||
    a.due_date.isSome || a.category.isSome

/-- The `UPDATE tasks SET ...` row transformation: each present field
replaces the stored one; an empty-string category was turned into NULL
by the loop (`if field == "category" and val == "": val = None`). -/
def applyUpdate (t : Task) (a : UpdateArgs) : Task :=
  { t with
    title := a.title.getD t.title,
    description := a.description.getD t.description,
    priority := a.priority.getD t.priority,
    status := a.status.getD t.status,
    due_date := match a.due_date with | some v => some v | none => t.due_date,
    category := match a.category with
      | some v => if v = "" then none else some v
      | none => t.category }

/-- `handle_update_task` (src/agent.py lines 483-531): requires `task_id`,
404s as a string on an unknown id, validates the present fields in order
(returning the first failure with the store untouched), and otherwise
rewrites exactly the present fields of the row. -/
def handle_update_task (s : TaskStore) (a : UpdateArgs) : String × TaskStore :=
  match a.task_id with
  | none => ("Error: task_id is required.", s)
  | some tid =>
    match findTask s tid with
    | none => (s!"No task found with ID {tid}.", s)
    | some _row =>
      match updateFieldError a with
      | some e => (e, s)
      | none =>
        if hasUpdateField a then
          (s!"Task {tid} updated successfully.",
           { s with tasks := s.tasks.map (fun t => if t.id == tid then applyUpdate t a else t) })
        else ("No fields to update.", s)

/-! ## handle_complete_task and handle_delete_task (src/agent.py lines 534-578) -/

/-- `handle_complete_task` (src/agent.py lines 534-557): requires `task_id`,
404s as a string, short-circuits on an already-completed row, else the
`UPDATE` sets only the status column. -/
def handle_complete_task (s : TaskStore) (task_id : Option Nat) : String × TaskStore :=
  match task_id with
  | none => ("Error: task_id is required.", s)
  | some tid =>
    match findTask s tid with
    | none => (s!"No task found with ID {tid}.", s)
    | some row =>
      if row.status = "completed" then (s!"Task {tid} is already completed.", s)
      else
        (s!"Task {tid} marked as completed: '{row.title}'",
         { s with tasks := s.tasks.map (fun t =>
             if t.id == tid then { t with status := "completed" } else t) })

/-- `handle_delete_task` (src/agent.py lines 560-578): requires `task_id`,
404s as a string, else deletes the row. -/
def handle_delete_task (s : TaskStore) (task_id : Option Nat) : String × TaskStore :=
  match task_id with
  | none => ("Error: task_id is required.", s)
  | some tid =>
    match findTask s tid with
    | none => (s!"No task found with ID {tid}.", s)
    | some row =>
      (s!"Task {tid} deleted: '{row.title}'",
       { s with tasks := s.tasks.filter (fun t => !(t.id == tid)) })

/-! ## handle_list_tasks (src/agent.py lines 423-480) -/

/-- Comparator realizing `ORDER BY (due_date IS NULL), due_date ASC, id ASC`:
rows with a date come first in ascending text order, NULL rows last, ties
broken by id. -/
def dueLeB (a b : Task) : Bool :=
  match a.due_date, b.due_date with
  | none, none => a.id ≤ b.id
  | none, some _ => false
  | some _, none => true
  | some x, some y => decide (x < y) || (x == y && decide (a.id ≤ b.id))

/-- The `CASE priority WHEN 'urgent' THEN 0 ...` key; an unlisted value
yields SQL NULL, which sorts first ascending. -/
def priorityRank (p : String) : Option Nat :=
  if p = "urgent" then some 0
  else if p = "high" then some 1
  else if p = "medium" then some 2
  else if p = "low" then some 3
  else none

/-- Comparator realizing `ORDER BY CASE priority ... END, id ASC`. -/
def priorityLeB (a b : Task) : Bool :=
  match priorityRank a.priority, priorityRank b.priority with
  | none, none => a.id ≤ b.id
  | none, some _ => true
  | some _, none => false
  | some x, some y => decide (x < y) || (x == y && decide (a.id ≤ b.id))

/-- Comparator realizing `ORDER BY created_at DESC, id DESC`. -/
def createdLeB (a b : Task) : Bool :=
  decide (b.created_at < a.created_at) || (b.created_at == a.created_at && decide (b.id ≤ a.id))

/-- Comparator realizing the default `ORDER BY id`. -/
def idLeB (a b : Task) : Bool := a.id ≤ b.id

/-- Insert into a sorted list, first position where the comparator holds. -/
def insertB (le : Task → Task → Bool) (x : Task) : List Task → List Task
  | [] => [x]
  | y :: ys => if le x y then x :: y :: ys else y :: insertB le x ys

/-- Insertion sort by a boolean comparator; realizes the SQL `ORDER BY`
since each comparator above is total and transitive with an id tiebreak. -/
def sortB (le : Task → Task → Bool) : List Task → List Task
  | [] => []
  | x :: xs => insertB le x (sortB le xs)

/-- The `WHERE` clause of `handle_list_tasks`: equality filters on status
and priority, case-insensitive category match (`LOWER(category) = LOWER(?)`;
a NULL category never matches). -/
def rowMatches (a : ListArgs) (t : Task) : Bool :=
  (match a.status with | some v => t.status == v | none => true) &&
  (match a.priority with | some v => t.priority == v | none => true) &&
  (match a.category with
    | some v => match t.category with
      | some c => pyLower c == pyLower v
      | none => false
    | none => true)

/-- Filtered and sorted row list of `handle_list_tasks`. -/
def listRows (s : TaskStore) (a : ListArgs) : List Task :=
  let rows := s.tasks.filter (rowMatches a)
  match a.sort_by with
  | some "due_date" => sortB dueLeB rows
  | some "priority" => sortB priorityLeB rows
  | some "created_at" => sortB createdLeB rows
  | _ => sortB idLeB rows

/-- One output line per row (src/agent.py lines 463-472): id, title,
priority, status, then a due suffix and a category suffix only when the
column is truthy (neither NULL nor the empty string). -/
def formatLine (t : Task) : String :=
  let line := s!"  [{t.id}] {t.title} | priority: {t.priority} | status: {t.status}"
  let line := match t.due_date with
    | some d => if d != "" then line ++ s!" | due: {d}" else line
    | none => line
  match t.category with
  | some c => if c != "" then line ++ s!" | category: {c}" else line
  | none => line

/-- `handle_list_tasks` (src/agent.py lines 423-480). -/
def handle_list_tasks (s : TaskStore) (a : ListArgs) : String × TaskStore :=
  let rows := listRows s a
  if rows.isEmpty then ("No tasks found.", s)
  else (s!"Found {rows.length} task(s):\n" ++ String.intercalate "\n" (rows.map formatLine), s)

/-! ## Tool dispatch (src/agent.py lines 585-599) -/

/-- A structured tool invocation as the LLM requests it: the tool name
selects the handler, unknown names fall through the `TOOL_HANDLERS` lookup. -/
inductive ToolCall where
  | add (a : AddArgs)
  | list (a : ListArgs)
  | update (a : UpdateArgs)
  | complete (task_id : Option Nat)
  | delete (task_id : Option Nat)
  | unknown (name : String)
deriving DecidableEq, Repr

/-- `execute_tool` (src/agent.py lines 594-599): dispatch through
`TOOL_HANDLERS`, returning `"Unknown tool: {name}"` for a name that is
not in the catalog. -/
def execute_tool (now : String) (s : TaskStore) : ToolCall → String × TaskStore
  | .add a => handle_add_task now s a
  | .list a => handle_list_tasks s a
  | .update a => handle_update_task s a
  | .complete tid => handle_complete_task s tid
  | .delete tid => handle_delete_task s tid
  | .unknown n => (s!"Unknown tool: {n}", s)

/-- Run a turn's tool_use blocks in order, threading the store
(the `for block in response.content` loop). -/
def execTools (now : String) (s : TaskStore) : List ToolCall → TaskStore
  | [] => s
  | c :: cs => execTools now (execute_tool now s c).2 cs

/-! ## The command loop (src/agent.py `process_user_input`, lines 607-683) -/

/-- One LLM response, abstracted: either `stop_reason == "tool_use"` with
the requested calls, or a final turn whose first text block (if any) is
carried. -/
inductive LLMResponse where
  | toolUse (calls : List ToolCall)
  | endTurn (text : Option String)
deriving Repr

/-- The fallback reply when a final response has no text block
(src/agent.py line 683). -/
def FALLBACK_REPLY : String :=
  "I'm not sure how to help with that. Try something like 'add buy groceries' or 'show all tasks'."

/-- The `APIError` message raised when the round cap is exceeded
(src/agent.py lines 628-630 and src/app.py lines 180-182). -/
def STUCK_MESSAGE : String :=
  "The assistant got stuck in a loop. Please try rephrasing your request."

/-- The `while True` loop of `process_user_input` (src/agent.py lines
624-683), with the LLM as an oracle `resp` mapping the round number to
that round's response: increment the counter, raise `APIError` (modelled
as `.error`) past `MAX_TOOL_ROUNDS`, execute requested tools and loop, or
return the final text. -/
def toolLoop (resp : Nat → LLMResponse) (now : String) (s : TaskStore)
    (rounds : Nat) : Except String (String × TaskStore) :=
  if h : MAX_TOOL_ROUNDS < rounds + 1 then .error STUCK_MESSAGE
  else
    match resp (rounds + 1) with
    | .toolUse calls => toolLoop resp now (execTools now s calls) (rounds + 1)
    | .endTurn (some t) => .ok (t, s)
    | .endTurn none => .ok (FALLBACK_REPLY, s)
termination_by MAX_TOOL_ROUNDS + 1 - rounds
decreasing_by simp only [MAX_TOOL_ROUNDS] at *; omega

/-- `process_user_input` after validation and client setup: the loop is
entered with the round counter at 0. -/
def process_user_input (resp : Nat → LLMResponse) (now : String) (s : TaskStore) :
    Except String (String × TaskStore) :=
  toolLoop resp now s 0

/-! ## The web command loop (src/app.py `process_command`, lines 154-233)

src/app.py defines its own `execute_tool` (lines 140-146) which invokes
`handler(conn, tool_input, user_id=user_id)`, but every handler in
src/agent.py is declared as `handler(conn, data)` with no `user_id`
parameter, so the call itself raises `TypeError` before the handler body
runs; nothing inside `process_command` catches it. -/

/-- `execute_tool` of src/app.py (lines 140-146): an unknown name still
returns the string, but a known name's handler call raises `TypeError`
(modelled as `.error`) because the agent handlers take no `user_id`. -/
def execute_tool_app (s : TaskStore) : ToolCall → Except String (String × TaskStore)
  | .add _ => .error "TypeError: handle_add_task() got an unexpected keyword argument 'user_id'"
  | .list _ => .error "TypeError: handle_list_tasks() got an unexpected keyword argument 'user_id'"
  | .update _ => .error "TypeError: handle_update_task() got an unexpected keyword argument 'user_id'"
  | .complete _ => .error "TypeError: handle_complete_task() got an unexpected keyword argument 'user_id'"
  | .delete _ => .error "TypeError: handle_delete_task() got an unexpected keyword argument 'user_id'"
  | .unknown n => .ok (s!"Unknown tool: {n}", s)

/-- The tool_use block loop of `process_command`: the first raised
`TypeError` propagates. -/
def execToolsApp (s : TaskStore) : List ToolCall → Except String TaskStore
  | [] => .ok s
  | c :: cs =>
    match execute_tool_app s c with
    | .ok (_, s') => execToolsApp s' cs
    | .error e => .error e

/-- How a run of `process_command`'s loop ends abnormally: the `APIError`
of the round cap, or an exception that escapes the loop uncaught. -/
inductive AppLoopErr where
  | apiError (msg : String)
  | uncaught (msg : String)
deriving DecidableEq, Repr

/-- The `while True` loop of `process_command` (src/app.py lines 177-231):
same counter and cap as the agent loop (`max_rounds = 10`), but tool
execution goes through `execute_tool_app` and its `TypeError` escapes. -/
def commandLoop (resp : Nat → LLMResponse) (s : TaskStore)
    (rounds : Nat) : Except AppLoopErr (String × TaskStore) :=
  if h : MAX_TOOL_ROUNDS < rounds + 1 then .error (.apiError STUCK_MESSAGE)
  else
    match resp (rounds + 1) with
    | .toolUse calls =>
      match execToolsApp s calls with
      | .ok s' => commandLoop resp s' (rounds + 1)
      | .error e => .error (.uncaught e)
    | .endTurn (some t) => .ok (t, s)
    | .endTurn none => .ok ("I'm not sure how to help with that.", s)
termination_by MAX_TOOL_ROUNDS + 1 - rounds
decreasing_by simp only [MAX_TOOL_ROUNDS] at *; omega

/-- `process_command` after validation and client setup. -/
def process_command (resp : Nat → LLMResponse) (s : TaskStore) :
    Except AppLoopErr (String × TaskStore) :=
  commandLoop resp s 0

/-! ## Operation sequences over the store (for the stored-category invariant) -/

/-- One store-mutating call of the add/update family. -/
inductive TaskOp where
  | add (a : AddArgs)
  | update (a : UpdateArgs)
deriving DecidableEq, Repr

/-- Apply one operation's store effect. -/
def runOp (now : String) (s : TaskStore) : TaskOp → TaskStore
  | .add a => (handle_add_task now s a).2
  | .update a => (handle_update_task s a).2

/-- Apply a sequence of operations from left to right. -/
def runOps (now : String) (s : TaskStore) : List TaskOp → TaskStore
  | [] => s
  | op :: ops => runOps now (runOp now s op) ops

/-! ## Helper lemmas -/

/-- `find?` by id commutes with a map that preserves ids. -/
theorem find?_map_id_preserving (g : Task → Task) (hg : ∀ t, (g t).id = t.id)
    (tid : Nat) : ∀ (l : List Task) (row : Task),
    l.find? (fun t => t.id == tid) = some row →
    (l.map g).find? (fun t => t.id == tid) = some (g row) := by
  intro l
  induction l with
  | nil => intro row h; simp at h
  | cons x xs ih =>
    intro row h
    rw [List.map_cons]
    by_cases hx : (x.id == tid) = true
    · rw [List.find?_cons_of_pos (p := fun (t : Task) => t.id == tid) _ hx] at h
      cases h
      exact List.find?_cons_of_pos (p := fun (t : Task) => t.id == tid) _ (by simpa [hg] using hx)
    · rw [List.find?_cons_of_neg (p := fun (t : Task) => t.id == tid) _ hx] at h
      rw [List.find?_cons_of_neg (p := fun (t : Task) => t.id == tid) _ (by simpa [hg] using hx)]
      exact ih row h

/-- The row an `UPDATE` rewrites keeps its id. -/
theorem applyUpdate_id (t : Task) (a : UpdateArgs) : (applyUpdate t a).id = t.id := rfl

/-! ## Concrete example rows and stores used by witnesses and counterexamples -/

/-- A pending example row with id 1. -/
def exTask1 : Task :=
  { id := 1, title := "milk", description := "", priority := "medium",
    status := "completed", created_at := "2026-01-01", due_date := none, category := none }

/-- A pending example row with id 2. -/
def exTask2 : Task :=
  { id := 2, title := "bread", description := "", priority := "high",
    status := "pending", created_at := "2026-01-02", due_date := some "2026-03-15",
    category := some "shopping" }

/-- A two-row store: task 1 completed, task 2 pending. -/
def exStore : TaskStore := { tasks := [exTask1, exTask2], nextId := 3 }

/-! ## C8: deleting a nonexistent id -/

/-- C8: for every id not present in the store, `handle_delete_task` returns
the not-found string (no exception is modelled: the handler is total) and
returns the store unmodified. -/
theorem delete_missing_id_is_noop (s : TaskStore) (tid : Nat)
    (h : findTask s tid = none) :
    handle_delete_task s (some tid) = (s!"No task found with ID {tid}.", s) := by
  simp only [handle_delete_task, h]

/-- Witness for C8: id 9999 on the empty store. -/
theorem delete_missing_id_is_noop_witness :
    handle_delete_task emptyStore (some 9999) = ("No task found with ID 9999.", emptyStore) :=
  delete_missing_id_is_noop emptyStore 9999 rfl

/-! ## C5: complete_task is idempotent -/

/-- C5: completing an already-completed task returns the already-completed
message and leaves every field of every stored task unchanged (the whole
store is returned as is); completing an existing non-completed task
rewrites exactly the status field of that row. -/
theorem complete_task_idempotent (s : TaskStore) (tid : Nat) (row : Task)
    (h : findTask s tid = some row) :
    (row.status = "completed" →
      handle_complete_task s (some tid) = (s!"Task {tid} is already completed.", s)) ∧
    (row.status ≠ "completed" →
      handle_complete_task s (some tid) =
        (s!"Task {tid} marked as completed: '{row.title}'",
         { s with tasks := s.tasks.map (fun t =>
             if t.id == tid then { t with status := "completed" } else t) })) := by
  constructor
  · intro hc
    simp only [handle_complete_task, h, if_pos hc]
  · intro hc
    simp only [handle_complete_task, h, if_neg hc]

/-- Witness for C5: on `exStore`, completing task 1 (already completed) is a
no-op with the already-completed message; completing task 2 flips its
status. -/
theorem complete_task_idempotent_witness :
    handle_complete_task exStore (some 1) = ("Task 1 is already completed.", exStore) ∧
    handle_complete_task exStore (some 2) =
      ("Task 2 marked as completed: 'bread'",
       { exStore with tasks := exStore.tasks.map (fun t =>
           if t.id == 2 then { t with status := "completed" } else t) }) :=
  ⟨(complete_task_idempotent exStore 1 exTask1 rfl).1 rfl,
   (complete_task_idempotent exStore 2 exTask2 rfl).2 (by decide)⟩

/-- Looking up the updated id after the `UPDATE` row map yields the
rewritten row. -/
theorem findTask_after_update (s : TaskStore) (tid : Nat) (row : Task) (a : UpdateArgs)
    (h : findTask s tid = some row) :
    findTask { s with tasks := s.tasks.map (fun t => if t.id == tid then applyUpdate t a else t) } tid
      = some (applyUpdate row a) := by
  have hh : s.tasks.find? (fun (t : Task) => t.id == tid) = some row := h
  have hid : (row.id == tid) = true := by simpa using List.find?_some hh
  have hmap := find?_map_id_preserving
    (fun t => if t.id == tid then applyUpdate t a else t)
    (fun t => by by_cases hx : (t.id == tid) = true <;> simp [hx, applyUpdate_id])
    tid s.tasks row hh
  show (s.tasks.map _).find? _ = _
  rw [hmap]
  refine congrArg some ?_
  show (if (row.id == tid) = true then applyUpdate row a else row) = _
  rw [if_pos hid]

/-! ## C10: update with an empty-string due_date -/

/-- C10: on an existing task, `update_task` with `due_date = ""` skips the
date-format check (the empty string is falsy), succeeds, and stores the
empty string itself in the row's due_date — not NULL, unlike the category
field; `strptimeYmd "" = none` records that the empty string would fail the
format check were it applied. -/
theorem update_empty_due_date_stored (s : TaskStore) (tid : Nat) (row : Task)
    (h : findTask s tid = some row) :
    (handle_update_task s { task_id := some tid, due_date := some "" }).1 =
      s!"Task {tid} updated successfully." ∧
    findTask (handle_update_task s { task_id := some tid, due_date := some "" }).2 tid =
      some { row with due_date := some "" } ∧
    strptimeYmd "" = none := by
  have hrun : handle_update_task s { task_id := some tid, due_date := some "" } =
      (s!"Task {tid} updated successfully.",
       { s with tasks := s.tasks.map (fun t =>
           if t.id == tid then applyUpdate t { task_id := some tid, due_date := some "" }
           else t) }) := by
    simp only [handle_update_task, h, updateFieldError, hasUpdateField]
    rfl
  refine ⟨by rw [hrun], ?_, rfl⟩
  rw [hrun]
  exact findTask_after_update s tid row { task_id := some tid, due_date := some "" } h

/-- Witness for C10: task 2 of `exStore` gets due_date `""` stored. -/
theorem update_empty_due_date_stored_witness :
    (handle_update_task exStore { task_id := some 2, due_date := some "" }).1 =
      "Task 2 updated successfully." ∧
    findTask (handle_update_task exStore { task_id := some 2, due_date := some "" }).2 2 =
      some { exTask2 with due_date := some "" } ∧
    strptimeYmd "" = none :=
  update_empty_due_date_stored exStore 2 exTask2 rfl

/-! ## C7: update with an empty-string category clears it -/

/-- Modelled on the specification's wording for comparison: the listing
line rendered for a task with no category suffix appended at all (the
first three columns plus the optional due suffix). -/
def renderedLineNoCategory (t : Task) : String :=
  let line := s!"  [{t.id}] {t.title} | priority: {t.priority} | status: {t.status}"
  match t.due_date with
  | some d => if d != "" then line ++ s!" | due: {d}" else line
  | none => line

/-- C7: on an existing task, `update_task` with `category = ""` succeeds,
the stored row's category becomes absent (`none`), and the listing line
rendered for the updated row is exactly the line with no category suffix. -/
theorem update_empty_category_clears (s : TaskStore) (tid : Nat) (row : Task)
    (h : findTask s tid = some row) :
    (handle_update_task s { task_id := some tid, category := some "" }).1 =
      s!"Task {tid} updated successfully." ∧
    findTask (handle_update_task s { task_id := some tid, category := some "" }).2 tid =
      some { row with category := none } ∧
    formatLine { row with category := none } =
      renderedLineNoCategory { row with category := none } := by
  have hrun : handle_update_task s { task_id := some tid, category := some "" } =
      (s!"Task {tid} updated successfully.",
       { s with tasks := s.tasks.map (fun t =>
           if t.id == tid then applyUpdate t { task_id := some tid, category := some "" }
           else t) }) := by
    simp only [handle_update_task, h, updateFieldError, hasUpdateField]
    rfl
  refine ⟨by rw [hrun], ?_, rfl⟩
  rw [hrun]
  exact findTask_after_update s tid row { task_id := some tid, category := some "" } h

/-- Witness for C7: clearing the category of task 2 of `exStore`. -/
theorem update_empty_category_clears_witness :
    (handle_update_task exStore { task_id := some 2, category := some "" }).1 =
      "Task 2 updated successfully." ∧
    findTask (handle_update_task exStore { task_id := some 2, category := some "" }).2 2 =
      some { exTask2 with category := none } ∧
    formatLine { exTask2 with category := none } =
      renderedLineNoCategory { exTask2 with category := none } :=
  update_empty_category_clears exStore 2 exTask2 rfl

/-! ## C3: update_task does not re-check the 200-character title cap -/

/-- A title of 201 characters, over the add-side cap. -/
def longTitle : String := String.mk (List.replicate 201 'a')

set_option maxRecDepth 20000 in
/-- Counterexample to C3 as stated: on a store holding task 1, updating it
with a 201-character title does not return an error — it returns the
success message and rewrites the stored row. -/
theorem update_long_title_cex :
    longTitle.length = 201 ∧
    (handle_update_task exStore { task_id := some 1, title := some longTitle }).1 =
      "Task 1 updated successfully." ∧
    findTask (handle_update_task exStore { task_id := some 1, title := some longTitle }).2 1 =
      some { exTask1 with title := longTitle } := by
  refine ⟨by decide, by decide, by decide⟩

/-- C3 as amended: `update_task` checks a present title only for being
non-blank; any title whose trimmed form is non-empty — in particular one
longer than 200 characters — is accepted, the call returns the success
message, and the title is stored verbatim. -/
theorem update_title_no_length_check (s : TaskStore) (tid : Nat) (row : Task) (ttl : String)
    (h : findTask s tid = some row) (ht : pyStrip ttl ≠ "") :
    (handle_update_task s { task_id := some tid, title := some ttl }).1 =
      s!"Task {tid} updated successfully." ∧
    findTask (handle_update_task s { task_id := some tid, title := some ttl }).2 tid =
      some { row with title := ttl } := by
  have hrun : handle_update_task s { task_id := some tid, title := some ttl } =
      (s!"Task {tid} updated successfully.",
       { s with tasks := s.tasks.map (fun t =>
           if t.id == tid then applyUpdate t { task_id := some tid, title := some ttl }
           else t) }) := by
    simp only [handle_update_task, h, updateFieldError, hasUpdateField, if_neg ht]
    rfl
  refine ⟨by rw [hrun], ?_⟩
  rw [hrun]
  exact findTask_after_update s tid row { task_id := some tid, title := some ttl } h

/-- Witness for the amended C3: the 201-character title on task 1 of
`exStore`. -/
theorem update_title_no_length_check_witness :
    (handle_update_task exStore { task_id := some 1, title := some longTitle }).1 =
      "Task 1 updated successfully." ∧
    findTask (handle_update_task exStore { task_id := some 1, title := some longTitle }).2 1 =
      some { exTask1 with title := longTitle } :=
  update_title_no_length_check exStore 1 exTask1 longTitle rfl (by decide)

/-! ## C1: strings in YYYY-MM-DD layout that name no existing calendar day -/

/-- A ten-character string in the `YYYY-MM-DD` digit layout, assembled from
its eight digit characters. -/
def layoutString (y1 y2 y3 y4 m1 m2 d1 d2 : Char) : String :=
  String.mk [y1, y2, y3, y4, '-', m1, m2, '-', d1, d2]

/-- Whether the digits of a layout string name an existing calendar day
(year at least 1, month 1..12, day within that month's length). -/
def layoutNamesDay (y1 y2 y3 y4 m1 m2 d1 d2 : Char) : Bool :=
  let y := digitVal y1 * 1000 + digitVal y2 * 100 + digitVal y3 * 10 + digitVal y4
  let m := digitVal m1 * 10 + digitVal m2
  let d := digitVal d1 * 10 + digitVal d2
  decide (1 ≤ y ∧ 1 ≤ m ∧ m ≤ 12 ∧ 1 ≤ d ∧ d ≤ daysInMonth y m)

/-- On a layout string the `%Y-%m-%d` parse reduces to the calendar check
on its digits. -/
theorem strptimeYmd_layout (y1 y2 y3 y4 m1 m2 d1 d2 : Char)
    (hd : (y1.isDigit && y2.isDigit && y3.isDigit && y4.isDigit &&
           m1.isDigit && m2.isDigit && d1.isDigit && d2.isDigit) = true) :
    strptimeYmd (layoutString y1 y2 y3 y4 m1 m2 d1 d2) =
      if layoutNamesDay y1 y2 y3 y4 m1 m2 d1 d2 = true then
        some (digitVal y1 * 1000 + digitVal y2 * 100 + digitVal y3 * 10 + digitVal y4,
              digitVal m1 * 10 + digitVal m2,
              digitVal d1 * 10 + digitVal d2)
      else none := by
  simp only [Bool.and_eq_true] at hd
  obtain ⟨⟨⟨⟨⟨⟨⟨h1, h2⟩, h3⟩, h4⟩, h5⟩, h6⟩, h7⟩, h8⟩
    : (((((((y1.isDigit = true ∧ y2.isDigit = true) ∧ y3.isDigit = true) ∧
      y4.isDigit = true) ∧ m1.isDigit = true) ∧ m2.isDigit = true) ∧
      d1.isDigit = true) ∧ d2.isDigit = true) := hd
  simp only [strptimeYmd, layoutString, layoutNamesDay, munch2,
    h1, h2, h3, h4, h5, h6, h7, h8, Bool.and_self, if_true, decide_eq_true_eq]

/-- Counterexample to C1 as stated: `"2026-02-30"` matches the digit layout
but `validate_due_date` rejects it with `InputError` rather than returning
it unchanged, and `handle_add_task` rejects it as a `due_date`, leaving the
store unchanged — the underlying parse does enforce calendar validity. -/
theorem due_date_2026_02_30_rejected :
    validate_due_date (some "2026-02-30") =
      .error "Invalid due date '2026-02-30'. Expected format: YYYY-MM-DD (e.g. 2026-03-15)" ∧
    validate_due_date (some "2026-02-30") ≠ .ok (some "2026-02-30") ∧
    handle_add_task "2026-01-01" emptyStore { title := some "t", due_date := some "2026-02-30" } =
      ("Error: invalid due date format '2026-02-30'. Use YYYY-MM-DD.", emptyStore) := by
  refine ⟨rfl, ?_, rfl⟩
  intro h
  rw [show validate_due_date (some "2026-02-30") =
    .error "Invalid due date '2026-02-30'. Expected format: YYYY-MM-DD (e.g. 2026-03-15)"
    from rfl] at h
  exact Except.noConfusion h

/-- C1 as amended: for every string in the `YYYY-MM-DD` digit layout whose
digits do not name an existing calendar day, `validate_due_date` raises
`InputError` (it does not return the string unchanged), and
`handle_add_task` rejects it as a `due_date` with an error string, leaving
any store unchanged: calendar validity is enforced by the parse. -/
theorem layout_non_day_rejected (y1 y2 y3 y4 m1 m2 d1 d2 : Char)
    (now : String) (s : TaskStore)
    (hd : (y1.isDigit && y2.isDigit && y3.isDigit && y4.isDigit &&
           m1.isDigit && m2.isDigit && d1.isDigit && d2.isDigit) = true)
    (hday : layoutNamesDay y1 y2 y3 y4 m1 m2 d1 d2 = false) :
    validate_due_date (some (layoutString y1 y2 y3 y4 m1 m2 d1 d2)) =
      .error s!"Invalid due date '{layoutString y1 y2 y3 y4 m1 m2 d1 d2}'. Expected format: YYYY-MM-DD (e.g. 2026-03-15)" ∧
    handle_add_task now s { title := some "t", due_date := some (layoutString y1 y2 y3 y4 m1 m2 d1 d2) } =
      (s!"Error: invalid due date format '{layoutString y1 y2 y3 y4 m1 m2 d1 d2}'. Use YYYY-MM-DD.", s) := by
  have hparse : strptimeYmd (layoutString y1 y2 y3 y4 m1 m2 d1 d2) = none := by
    rw [strptimeYmd_layout y1 y2 y3 y4 m1 m2 d1 d2 hd, if_neg]
    simp [hday]
  have hne : layoutString y1 y2 y3 y4 m1 m2 d1 d2 ≠ "" := by
    intro hcontra
    have : ([y1, y2, y3, y4, '-', m1, m2, '-', d1, d2] : List Char) = [] :=
      congrArg String.data hcontra
    simp at this
  constructor
  · simp only [validate_due_date, if_neg hne, hparse, Option.isSome_none, Bool.false_eq_true,
      if_false]
  · simp only [handle_add_task, hparse]
    rfl

/-- The layout string assembled from the digits of `"2026-02-30"`. -/
def feb30layout : String := layoutString '2' '0' '2' '6' '0' '2' '3' '0'

/-- Witness for the amended C1: the digits of `"2026-02-30"`. -/
theorem layout_non_day_rejected_witness :
    validate_due_date (some feb30layout) =
      .error s!"Invalid due date '{feb30layout}'. Expected format: YYYY-MM-DD (e.g. 2026-03-15)" ∧
    handle_add_task "2026-01-01" emptyStore
        { title := some "t", due_date := some feb30layout } =
      (s!"Error: invalid due date format '{feb30layout}'. Use YYYY-MM-DD.", emptyStore) :=
  layout_non_day_rejected '2' '0' '2' '6' '0' '2' '3' '0' "2026-01-01" emptyStore
    (by decide) (by decide)

/-! ## C2: are stored categories lowercase? -/

/-- A string that is already all-lowercase. -/
def isLowerB (s : String) : Bool := pyLower s == s

/-- A task whose category, when present, is lowercase. -/
def taskCategoryLower (t : Task) : Bool :=
  match t.category with
  | some c => isLowerB c
  | none => true

/-- Every stored task's category, when present, is lowercase. -/
def storeCategoriesLower (s : TaskStore) : Bool := s.tasks.all taskCategoryLower

/-- An operation whose category argument, if supplied, is lowercase. -/
def opCategoryLower : TaskOp → Bool
  | .add a => match a.category with | some c => isLowerB c | none => true
  | .update a => match a.category with | some c => isLowerB c | none => true

/-- `handle_add_task` stores the category argument verbatim, so it keeps
the all-lowercase store property whenever the supplied category is
lowercase. -/
theorem add_keeps_categoriesLower (now : String) (s : TaskStore) (a : AddArgs)
    (ha : opCategoryLower (.add a) = true)
    (hs : storeCategoriesLower s = true) :
    storeCategoriesLower (handle_add_task now s a).2 = true := by
  unfold handle_add_task
  dsimp only
  split
  · exact hs
  split
  · exact hs
  split
  · exact hs
  split
  · exact hs
  split
  · exact hs
  · simp only [storeCategoriesLower, insertTask, List.all_append, Bool.and_eq_true]
    refine ⟨hs, ?_⟩
    simp only [List.all_cons, List.all_nil, Bool.and_true, taskCategoryLower]
    simpa only [opCategoryLower] using ha

/-- `handle_update_task` stores the category argument verbatim (mapping the
empty string to absent), so it keeps the all-lowercase store property
whenever the supplied category is lowercase. -/
theorem update_keeps_categoriesLower (s : TaskStore) (a : UpdateArgs)
    (ha : opCategoryLower (.update a) = true)
    (hs : storeCategoriesLower s = true) :
    storeCategoriesLower (handle_update_task s a).2 = true := by
  cases hta : a.task_id with
  | none => simp only [handle_update_task, hta]; exact hs
  | some tid =>
    cases hf : findTask s tid with
    | none => simp only [handle_update_task, hta, hf]; exact hs
    | some row =>
      cases he : updateFieldError a with
      | some e => simp only [handle_update_task, hta, hf, he]; exact hs
      | none =>
        by_cases hu : hasUpdateField a = true
        · simp only [handle_update_task, hta, hf, he, if_pos hu]
          simp only [storeCategoriesLower, List.all_eq_true] at hs ⊢
          intro t ht
          rcases List.mem_map.mp ht with ⟨u, humem, rfl⟩
          show taskCategoryLower (if (u.id == tid) = true then applyUpdate u a else u) = true
          by_cases hid : (u.id == tid) = true
          · rw [if_pos hid]
            simp only [taskCategoryLower, applyUpdate]
            cases hc : a.category with
            | none => exact hs u humem
            | some c =>
              by_cases hce : c = ""
              · simp [hce]
              · simp only [if_neg hce]
                simpa only [opCategoryLower, hc] using ha
          · rw [if_neg hid]
            exact hs u humem
        · simp only [handle_update_task, hta, hf, he, if_neg hu]
          exact hs

/-- C2 as amended: the handlers store category labels verbatim (they never
lowercase), so after any sequence of add/update operations from the empty
store in which every supplied category label is lowercase, every stored
category is lowercase. -/
theorem stored_categories_lower_when_inputs_lower (now : String) (ops : List TaskOp)
    (h : ops.all opCategoryLower = true) :
    storeCategoriesLower (runOps now emptyStore ops) = true := by
  have gen : ∀ (l : List TaskOp) (s : TaskStore), l.all opCategoryLower = true →
      storeCategoriesLower s = true → storeCategoriesLower (runOps now s l) = true := by
    intro l
    induction l with
    | nil => intro s _ hs; exact hs
    | cons op rest ih =>
      intro s hall hs
      rw [List.all_cons, Bool.and_eq_true] at hall
      show storeCategoriesLower (runOps now (runOp now s op) rest) = true
      cases op with
      | add a => exact ih _ hall.2 (add_keeps_categoriesLower now s a hall.1 hs)
      | update a => exact ih _ hall.2 (update_keeps_categoriesLower s a hall.1 hs)
  exact gen ops emptyStore h rfl

/-- Counterexample to C2 as stated: adding a task with category `"Work"`
stores `"Work"` verbatim — the handlers never lowercase, so the stored
category is not a lowercase string. -/
theorem stored_category_not_lowered_cex :
    (runOps "2026-01-01" emptyStore
        [.add { title := some "t", category := some "Work" }]).tasks.map Task.category =
      [some "Work"] ∧
    isLowerB "Work" = false ∧
    storeCategoriesLower (runOps "2026-01-01" emptyStore
        [.add { title := some "t", category := some "Work" }]) = false := by
  refine ⟨rfl, rfl, rfl⟩

/-- Witness for the amended C2: an add with category `"work"` followed by
an update to `"home"` and an update clearing a category. -/
theorem stored_categories_lower_witness :
    storeCategoriesLower (runOps "2026-01-01" emptyStore
      [.add { title := some "t", category := some "work" },
       .add { title := some "u", category := some "errands" },
       .update { task_id := some 1, category := some "home" },
       .update { task_id := some 2, category := some "" }]) = true :=
  stored_categories_lower_when_inputs_lower "2026-01-01"
    [.add { title := some "t", category := some "work" },
     .add { title := some "u", category := some "errands" },
     .update { task_id := some 1, category := some "home" },
     .update { task_id := some 2, category := some "" }] (by decide)

/-! ## C6: sorting by due_date -/

/-- Membership in an insertion. -/
theorem mem_insertB (le : Task → Task → Bool) (a : Task) :
    ∀ (l : List Task) (x : Task), x ∈ insertB le a l → x = a ∨ x ∈ l := by
  intro l
  induction l with
  | nil =>
    intro x hx
    simp only [insertB, List.mem_singleton] at hx
    exact Or.inl hx
  | cons y ys ih =>
    intro x hx
    simp only [insertB] at hx
    by_cases hle : le a y = true
    · rw [if_pos hle] at hx
      rcases List.mem_cons.mp hx with h | h
      · exact Or.inl h
      · exact Or.inr h
    · rw [if_neg hle] at hx
      rcases List.mem_cons.mp hx with h | h
      · exact Or.inr (h ▸ List.mem_cons_self y _)
      · rcases ih x h with h' | h'
        · exact Or.inl h'
        · exact Or.inr (List.mem_cons_of_mem y h')

/-- Inserting into a chain sorted by a total transitive comparator keeps
it sorted. -/
theorem pairwise_insertB (le : Task → Task → Bool)
    (htot : ∀ a b, le a b = false → le b a = true)
    (htrans : ∀ a b c, le a b = true → le b c = true → le a c = true)
    (a : Task) :
    ∀ l, List.Pairwise (fun x y => le x y = true) l →
      List.Pairwise (fun x y => le x y = true) (insertB le a l) := by
  intro l
  induction l with
  | nil =>
    intro _
    simp [insertB]
  | cons y ys ih =>
    intro hp
    rcases List.pairwise_cons.mp hp with ⟨hy, hys⟩
    simp only [insertB]
    by_cases hle : le a y = true
    · rw [if_pos hle]
      refine List.pairwise_cons.mpr ⟨?_, hp⟩
      intro z hz
      rcases List.mem_cons.mp hz with h | h
      · exact h ▸ hle
      · exact htrans a y z hle (hy z h)
    · rw [if_neg hle]
      refine List.pairwise_cons.mpr ⟨?_, ih hys⟩
      intro z hz
      rcases mem_insertB le a ys z hz with h | h
      · exact h ▸ htot a y (Bool.not_eq_true _ ▸ hle)
      · exact hy z h

/-- `sortB` with a total transitive comparator yields a sorted chain. -/
theorem pairwise_sortB (le : Task → Task → Bool)
    (htot : ∀ a b, le a b = false → le b a = true)
    (htrans : ∀ a b c, le a b = true → le b c = true → le a c = true) :
    ∀ l, List.Pairwise (fun x y => le x y = true) (sortB le l) := by
  intro l
  induction l with
  | nil => simp [sortB]
  | cons x xs ih => exact pairwise_insertB le htot htrans x (sortB le xs) ih

/-- The due-date comparator is total. -/
theorem dueLeB_total (a b : Task) (h : dueLeB a b = false) : dueLeB b a = true := by
  unfold dueLeB at h ⊢
  cases ha : a.due_date with
  | none =>
    cases hb : b.due_date with
    | none =>
      rw [ha, hb] at h
      have h' : decide (a.id ≤ b.id) = false := h
      show decide (b.id ≤ a.id) = true
      simp only [decide_eq_false_iff_not, Nat.not_le] at h'
      simp only [decide_eq_true_eq]
      exact Nat.le_of_lt h'
    | some y => rfl
  | some x =>
    cases hb : b.due_date with
    | none =>
      rw [ha, hb] at h
      exact absurd (show (true : Bool) = false from h) (by simp)
    | some y =>
      rw [ha, hb] at h
      have h' : (decide (x < y) || (x == y && decide (a.id ≤ b.id))) = false := h
      show (decide (y < x) || (y == x && decide (b.id ≤ a.id))) = true
      simp only [Bool.or_eq_false_iff, Bool.and_eq_false_iff, decide_eq_false_iff_not,
        not_lt, not_le, beq_eq_false_iff_ne, ne_eq] at h'
      simp only [Bool.or_eq_true, Bool.and_eq_true, decide_eq_true_eq, beq_iff_eq]
      obtain ⟨hyx, h2⟩ := h'
      rcases lt_or_eq_of_le hyx with hlt | heq
      · exact Or.inl hlt
      · rcases h2 with hne | hlt'
        · exact absurd heq.symm hne
        · exact Or.inr ⟨heq, Nat.le_of_lt hlt'⟩

/-- The due-date comparator is transitive. -/
theorem dueLeB_trans (a b c : Task)
    (hab : dueLeB a b = true) (hbc : dueLeB b c = true) : dueLeB a c = true := by
  unfold dueLeB at hab hbc ⊢
  cases ha : a.due_date with
  | none =>
    cases hb : b.due_date with
    | none =>
      cases hc : c.due_date with
      | none =>
        rw [ha, hb] at hab
        rw [hb, hc] at hbc
        have h1 : decide (a.id ≤ b.id) = true := hab
        have h2 : decide (b.id ≤ c.id) = true := hbc
        show decide (a.id ≤ c.id) = true
        simp only [decide_eq_true_eq] at h1 h2 ⊢
        exact Nat.le_trans h1 h2
      | some z =>
        rw [hb, hc] at hbc
        exact absurd (show (false : Bool) = true from hbc) (by simp)
    | some y =>
      rw [ha, hb] at hab
      exact absurd (show (false : Bool) = true from hab) (by simp)
  | some x =>
    cases hc : c.due_date with
    | none => rfl
    | some z =>
      cases hb : b.due_date with
      | none =>
        rw [hb, hc] at hbc
        exact absurd (show (false : Bool) = true from hbc) (by simp)
      | some y =>
        rw [ha, hb] at hab
        rw [hb, hc] at hbc
        have h1 : (decide (x < y) || (x == y && decide (a.id ≤ b.id))) = true := hab
        have h2 : (decide (y < z) || (y == z && decide (b.id ≤ c.id))) = true := hbc
        show (decide (x < z) || (x == z && decide (a.id ≤ c.id))) = true
        simp only [Bool.or_eq_true, Bool.and_eq_true, decide_eq_true_eq, beq_iff_eq]
          at h1 h2 ⊢
        rcases h1 with hlt | ⟨heq, hid⟩
        · rcases h2 with hlt' | ⟨heq', _⟩
          · exact Or.inl (lt_trans hlt hlt')
          · exact Or.inl (heq' ▸ hlt)
        · rcases h2 with hlt' | ⟨heq', hid'⟩
          · exact Or.inl (heq ▸ hlt')
          · exact Or.inr ⟨heq.trans heq', Nat.le_trans hid hid'⟩

/-- The ordering C6 claims of the output: a row with a due date never
follows a row without one, and among dated rows the dates ascend. -/
def dueOrdered (a b : Task) : Prop :=
  match a.due_date, b.due_date with
  | none, some _ => False
  | some x, some y => x ≤ y
  | _, _ => True

/-- The comparator implies the claimed ordering. -/
theorem dueLeB_imp_dueOrdered (a b : Task) (h : dueLeB a b = true) : dueOrdered a b := by
  unfold dueLeB at h
  unfold dueOrdered
  cases ha : a.due_date with
  | none =>
    cases hb : b.due_date with
    | none => trivial
    | some y =>
      rw [ha, hb] at h
      exact absurd (show (false : Bool) = true from h) (by simp)
  | some x =>
    cases hb : b.due_date with
    | none => trivial
    | some y =>
      rw [ha, hb] at h
      have h' : (decide (x < y) || (x == y && decide (a.id ≤ b.id))) = true := h
      show x ≤ y
      simp only [Bool.or_eq_true, decide_eq_true_eq, Bool.and_eq_true, beq_iff_eq] at h'
      rcases h' with hlt | ⟨heq, _⟩
      · exact le_of_lt hlt
      · exact le_of_eq heq

/-- Insertion permutes the inserted head onto the list. -/
theorem insertB_perm (le : Task → Task → Bool) (a : Task) :
    ∀ l : List Task, List.Perm (insertB le a l) (a :: l) := by
  intro l
  induction l with
  | nil => simp [insertB]
  | cons y ys ih =>
    simp only [insertB]
    by_cases h : le a y = true
    · rw [if_pos h]
    · rw [if_neg h]
      exact List.Perm.trans (List.Perm.cons y ih) (List.Perm.swap a y ys)

/-- `sortB` permutes its input: no row is dropped or duplicated. -/
theorem sortB_perm (le : Task → Task → Bool) :
    ∀ l : List Task, List.Perm (sortB le l) l := by
  intro l
  induction l with
  | nil => simp [sortB]
  | cons x xs ih =>
    exact List.Perm.trans (insertB_perm le x (sortB le xs)) (List.Perm.cons x ih)

/-- C6: for every store and every combination of filters, `list_tasks` with
`sort_by = "due_date"` yields exactly the filtered rows (a permutation of
them) in ascending due-date order with every row lacking a due date placed
after all rows that have one — in particular a task added with no due date
appears after all dated tasks. -/
theorem list_tasks_due_date_sorted (s : TaskStore) (fs fp fc : Option String) :
    List.Pairwise dueOrdered (listRows s ⟨fs, fp, fc, some "due_date"⟩) ∧
    List.Perm (listRows s ⟨fs, fp, fc, some "due_date"⟩)
      (s.tasks.filter (rowMatches ⟨fs, fp, fc, some "due_date"⟩)) := by
  have hsorted := pairwise_sortB dueLeB dueLeB_total dueLeB_trans
    (s.tasks.filter (rowMatches ⟨fs, fp, fc, some "due_date"⟩))
  have hred : listRows s ⟨fs, fp, fc, some "due_date"⟩ =
      sortB dueLeB (s.tasks.filter (rowMatches ⟨fs, fp, fc, some "due_date"⟩)) := rfl
  constructor
  · rw [hred]
    exact hsorted.imp (fun h => dueLeB_imp_dueOrdered _ _ h)
  · rw [hred]
    exact sortB_perm dueLeB _

/-! ## C9: handler failures are atomic -/

/-- Whether `p` is a leading substring of `s`. -/
def strStarts (s p : String) : Bool := p.data.isPrefixOf s.data

/-- The failure strings of the four mutating handlers: validation errors
start with `Error`, and the not-found / nothing-to-do strings start with
`No` (`"No task found with ID ..."`, `"No fields to update."`). Every
success string starts with `Task`. -/
def isFailureString (m : String) : Bool := strStarts m "Error" || strStarts m "No"

/-- A string whose text begins with the letter T is not a failure string. -/
theorem isFailureString_eq_false_of_head (m : String)
    (h : m.data.head? = some 'T') : isFailureString m = false := by
  unfold isFailureString strStarts
  cases hm : m.data with
  | nil => rw [hm] at h; exact absurd h (by simp)
  | cons c rest =>
    rw [hm] at h
    simp only [List.head?_cons, Option.some.injEq] at h
    subst h
    rfl

/-- `handle_add_task` either returns the store untouched or reports a
success string (which is not a failure string). -/
theorem add_failure_unchanged (now : String) (s : TaskStore) (a : AddArgs) :
    (handle_add_task now s a).2 = s ∨ isFailureString (handle_add_task now s a).1 = false := by
  unfold handle_add_task
  dsimp only
  split
  · exact Or.inl rfl
  split
  · exact Or.inl rfl
  split
  · exact Or.inl rfl
  split
  · exact Or.inl rfl
  split
  · exact Or.inl rfl
  · refine Or.inr ?_
    repeat' split
    all_goals exact isFailureString_eq_false_of_head _ rfl

/-- C9: whenever `handle_add_task`, `handle_update_task`,
`handle_complete_task` or `handle_delete_task` returns a failure string
(a validation error, a missing `task_id`, an unknown id, or nothing to
update), all validation ran before any write and the store is returned
exactly as it was. -/
theorem handler_failures_atomic (now : String) (s : TaskStore) :
    (∀ a : AddArgs, isFailureString (handle_add_task now s a).1 = true →
      (handle_add_task now s a).2 = s) ∧
    (∀ a : UpdateArgs, isFailureString (handle_update_task s a).1 = true →
      (handle_update_task s a).2 = s) ∧
    (∀ tid : Option Nat, isFailureString (handle_complete_task s tid).1 = true →
      (handle_complete_task s tid).2 = s) ∧
    (∀ tid : Option Nat, isFailureString (handle_delete_task s tid).1 = true →
      (handle_delete_task s tid).2 = s) := by
  refine ⟨?_, ?_, ?_, ?_⟩
  · intro a h
    rcases add_failure_unchanged now s a with h2 | h2
    · exact h2
    · rw [h2] at h
      exact Bool.noConfusion h
  · intro a h
    cases hta : a.task_id with
    | none => simp only [handle_update_task, hta]
    | some tid =>
      cases hf : findTask s tid with
      | none => simp only [handle_update_task, hta, hf]
      | some row =>
        cases he : updateFieldError a with
        | some e => simp only [handle_update_task, hta, hf, he]
        | none =>
          by_cases hu : hasUpdateField a = true
          · exfalso
            simp only [handle_update_task, hta, hf, he, if_pos hu] at h
            have hfalse := isFailureString_eq_false_of_head
              s!"Task {tid} updated successfully." rfl
            rw [hfalse] at h
            exact Bool.noConfusion h
          · simp only [handle_update_task, hta, hf, he, if_neg hu]
  · intro tid h
    cases hta : tid with
    | none => simp only [handle_complete_task, hta]
    | some t =>
      cases hf : findTask s t with
      | none => simp only [handle_complete_task, hta, hf]
      | some row =>
        by_cases hc : row.status = "completed"
        · simp only [handle_complete_task, hta, hf, if_pos hc]
        · exfalso
          simp only [handle_complete_task, hta, hf, if_neg hc] at h
          have hfalse := isFailureString_eq_false_of_head
            s!"Task {t} marked as completed: '{row.title}'" rfl
          rw [hfalse] at h
          exact Bool.noConfusion h
  · intro tid h
    cases hta : tid with
    | none => simp only [handle_delete_task, hta]
    | some t =>
      cases hf : findTask s t with
      | none => simp only [handle_delete_task, hta, hf]
      | some row =>
        exfalso
        simp only [handle_delete_task, hta, hf] at h
        have hfalse := isFailureString_eq_false_of_head
          s!"Task {t} deleted: '{row.title}'" rfl
        rw [hfalse] at h
        exact Bool.noConfusion h

/-- Witness for C9: one failing call of each handler on `exStore`, each
returning a failure string and the untouched store. -/
theorem handler_failures_atomic_witness :
    (handle_add_task "2026-01-01" exStore {}).2 = exStore ∧
    (handle_update_task exStore { task_id := some 99, title := some "x" }).2 = exStore ∧
    (handle_complete_task exStore none).2 = exStore ∧
    (handle_delete_task exStore (some 42)).2 = exStore :=
  ⟨(handler_failures_atomic "2026-01-01" exStore).1 {} (by decide),
   (handler_failures_atomic "2026-01-01" exStore).2.1
     { task_id := some 99, title := some "x" } (by decide),
   (handler_failures_atomic "2026-01-01" exStore).2.2.1 none (by decide),
   (handler_failures_atomic "2026-01-01" exStore).2.2.2 (some 42) (by decide)⟩

/-! ## C4: the round counter and the 10-round cap -/

/-- One unfolding of the agent loop. -/
theorem toolLoop_unfold (resp : Nat → LLMResponse) (now : String) (s : TaskStore)
    (rounds : Nat) :
    toolLoop resp now s rounds =
      if MAX_TOOL_ROUNDS < rounds + 1 then .error STUCK_MESSAGE
      else
        match resp (rounds + 1) with
        | .toolUse calls => toolLoop resp now (execTools now s calls) (rounds + 1)
        | .endTurn (some t) => .ok (t, s)
        | .endTurn none => .ok (FALLBACK_REPLY, s) := by
  rw [toolLoop]
  by_cases h : MAX_TOOL_ROUNDS < rounds + 1
  · rw [dif_pos h, if_pos h]
  · rw [dif_neg h, if_neg h]

/-- One unfolding of the web loop. -/
theorem commandLoop_unfold (resp : Nat → LLMResponse) (s : TaskStore) (rounds : Nat) :
    commandLoop resp s rounds =
      if MAX_TOOL_ROUNDS < rounds + 1 then .error (.apiError STUCK_MESSAGE)
      else
        match resp (rounds + 1) with
        | .toolUse calls =>
          match execToolsApp s calls with
          | .ok s' => commandLoop resp s' (rounds + 1)
          | .error e => .error (.uncaught e)
        | .endTurn (some t) => .ok (t, s)
        | .endTurn none => .ok ("I'm not sure how to help with that.", s) := by
  rw [commandLoop]
  by_cases h : MAX_TOOL_ROUNDS < rounds + 1
  · rw [dif_pos h, if_pos h]
  · rw [dif_neg h, if_neg h]

/-- In the agent loop, a round whose response requests tools advances the
counter by exactly one. -/
theorem toolLoop_step (resp : Nat → LLMResponse) (now : String) (s : TaskStore)
    (rounds : Nat) (calls : List ToolCall)
    (hcap : rounds + 1 ≤ MAX_TOOL_ROUNDS) (hresp : resp (rounds + 1) = .toolUse calls) :
    toolLoop resp now s rounds = toolLoop resp now (execTools now s calls) (rounds + 1) := by
  rw [toolLoop_unfold, if_neg (by omega), hresp]

/-- If the LLM requests tools on each of the first ten rounds, the agent
loop stops with the `APIError` "stuck in a loop" message: the cap is the
only loop-breaking mechanism in `process_user_input`, whose tool execution
always returns strings. -/
theorem toolLoop_cap_all_toolUse (resp : Nat → LLMResponse) (now : String)
    (hall : ∀ j, 1 ≤ j → j ≤ MAX_TOOL_ROUNDS → ∃ calls, resp j = .toolUse calls) :
    ∀ (n rounds : Nat) (s : TaskStore), MAX_TOOL_ROUNDS - rounds = n →
      toolLoop resp now s rounds = .error STUCK_MESSAGE := by
  intro n
  induction n with
  | zero =>
    intro rounds s hn
    have : MAX_TOOL_ROUNDS < rounds + 1 := by
      simp only [MAX_TOOL_ROUNDS] at hn ⊢
      omega
    rw [toolLoop_unfold, if_pos this]
  | succ k ih =>
    intro rounds s hn
    have hle : rounds + 1 ≤ MAX_TOOL_ROUNDS := by
      simp only [MAX_TOOL_ROUNDS] at hn ⊢
      omega
    obtain ⟨calls, hc⟩ := hall (rounds + 1) (by omega) hle
    rw [toolLoop_step resp now s rounds calls hle hc]
    exact ih (rounds + 1) _ (by omega)

/-- C4 (evaluating the code at the failing input): in `process_command`
(src/app.py) a response that requests any known tool does not execute it
and continue the loop — the handler call `handler(conn, tool_input,
user_id=user_id)` raises `TypeError`, because the handlers of src/agent.py
accept only `(conn, data)`; the loop exits with that uncaught exception,
neither a final text nor an `APIError`. The agent-side
`process_user_input`, by contrast, ends the same all-tool-use response
sequence with the `APIError` stuck-in-a-loop message after its ten rounds. -/
theorem process_command_tool_round_typeerror :
    process_command (fun _ => .toolUse [.add { title := some "x" }]) emptyStore =
      .error (.uncaught
        "TypeError: handle_add_task() got an unexpected keyword argument 'user_id'") ∧
    process_user_input (fun _ => .toolUse [.add { title := some "x" }]) "2026-01-01"
      emptyStore = .error STUCK_MESSAGE := by
  constructor
  · show commandLoop _ emptyStore 0 = _
    rw [commandLoop_unfold, if_neg (by simp [MAX_TOOL_ROUNDS])]
    rfl
  · show toolLoop _ "2026-01-01" emptyStore 0 = _
    exact toolLoop_cap_all_toolUse _ "2026-01-01"
      (fun j _ _ => ⟨[.add { title := some "x" }], rfl⟩) MAX_TOOL_ROUNDS 0 emptyStore rfl

end Agent
